import Mathlib

/-
Verification of the feed-rs format-detection and normalization pipeline
(src/parser/mod.rs): the dispatcher, the error taxonomy, and the parts of
the unified model and the Atom mapper needed by the stated properties.

The dispatcher and error taxonomy are embedded directly from
src/parser/mod.rs.  The Element Source (src/util/element_source.rs), the
unified model (src/model.rs) and the four dialect mappers
(src/parser/{atom,rss0,rss1,rss2}.rs) are not part of the provided
sources; where a property depends on them they are modelled from the
specification, as marked on each definition.
-/

set_option autoImplicit false

namespace FeedRs

/-- Modelled from the spec: an XML node as exposed by the Element Source
(src/util/element_source.rs is not among the provided sources).  An
element carries a local name, an optional namespace, an ordered attribute
list (local name / value pairs) and its children in document order;
character data appears as text nodes. -/
inductive Node where
  | element (local_name : String) (ns : Option String)
      (attributes : List (String × String)) (children : List Node)
  | text (content : String)

/-- Local name of a node; the Element Source only ever hands out elements
as the root, so the text case is inert (a text node matches no feed root). -/
def Node.local_name : Node → String
  | .element n _ _ _ => n
  | .text _ => ""

/-- Attribute list of a node; empty for text nodes. -/
def Node.attributes : Node → List (String × String)
  | .element _ _ a _ => a
  | .text _ => []

/-- Children of a node; empty for text nodes. -/
def Node.children : Node → List Node
  | .element _ _ _ c => c
  | .text _ => []

/-- Modelled from the spec: the accessor returning the concatenated
character data directly under an element, or none when no text node is
present (used for a child whose own text node may be absent). -/
def Node.textContent : Node → Option String
  | .element _ _ _ children =>
      let texts := children.filterMap fun c =>
        match c with
        | .text s => some s
        | .element _ _ _ _ => none
      if texts.isEmpty then none else some (String.join texts)
  | .text s => some s

/-- Modelled from the spec: an error surfaced by the underlying XML
tokenizer (the xml-rs reader error, an external collaborator).  Its
internal structure is irrelevant to the dispatcher; it is kept abstract
as a wrapped message. -/
structure XmlError where
  message : String
deriving DecidableEq

/-- Underlying cause of the parse failure (src/parser/mod.rs,
ParseErrorKind).  The InvalidDateTime cause, a boxed error in the source,
is modelled as its message. -/
inductive ParseErrorKind where
  | NoFeedRoot
  | UnknownMimeType (mime : String)
  | MissingContent (field : String)
  | InvalidDateTime (cause : String)
deriving DecidableEq

/-- An error returned when parsing a feed from a source fails
(src/parser/mod.rs, ParseFeedError). -/
inductive ParseFeedError where
  | ParseError (kind : ParseErrorKind)
  | XmlReader (err : XmlError)
deriving DecidableEq

/-- Result alias from src/parser/mod.rs: ParseFeedResult. -/
def ParseFeedResult (T : Type) : Type := Except ParseFeedError T

/-- Decidable equality for Except results, so concrete parses can be
checked by evaluation. -/
def exceptDecEq {E A : Type} [DecidableEq E] [DecidableEq A] :
    DecidableEq (Except E A) := fun x y =>
  match x, y with
  | .ok a, .ok b =>
      match decEq a b with
      | isTrue h => isTrue (by rw [h])
      | isFalse h => isFalse (by intro hc; cases hc; exact h rfl)
  | .ok _, .error _ => isFalse (by intro hc; cases hc)
  | .error _, .ok _ => isFalse (by intro hc; cases hc)
  | .error e, .error f =>
      match decEq e f with
      | isTrue h => isTrue (by rw [h])
      | isFalse h => isFalse (by intro hc; cases hc; exact h rfl)

instance (T : Type) [DecidableEq T] : DecidableEq (ParseFeedResult T) :=
  exceptDecEq

/-- Modelled from the spec: content-type classification of a Text slot
(text / html / xhtml). -/
inductive TextContentType where
  | Text
  | Html
  | Xhtml
deriving DecidableEq

/-- Modelled from the spec: the Text record of the unified model — a
content-type classification together with the raw value, passed through
unmodified. -/
structure Text where
  content_type : TextContentType
  value : String
deriving DecidableEq

/-- Modelled from the spec: a timestamp (calendar date and UTC time of
day), the parsed form of an Atom RFC 3339 instant. -/
structure DateTime where
  year : Nat
  month : Nat
  day : Nat
  hour : Nat
  minute : Nat
  second : Nat
deriving DecidableEq

/-- Modelled from the spec: the Person record (name / email / uri). -/
structure Person where
  name : String
  email : Option String := none
  uri : Option String := none
deriving DecidableEq

/-- Modelled from the spec: the Link record (href / rel / media type /
title / length). -/
structure Link where
  href : String
  rel : Option String := none
  media_type : Option String := none
  title : Option String := none
  length : Option Nat := none
deriving DecidableEq

/-- Modelled from the spec: the Category record (term / scheme / label). -/
structure Category where
  term : String
  scheme : Option String := none
  label : Option String := none
deriving DecidableEq

/-- Modelled from the spec: the Image record. -/
structure Image where
  url : String
  title : Option String := none
deriving DecidableEq

/-- Modelled from the spec: the Generator record. -/
structure Generator where
  value : String
  uri : Option String := none
  version : Option String := none
deriving DecidableEq

/-- Modelled from the spec: the Content record (body / content type /
length / out-of-line src link). -/
structure Content where
  body : Option String := none
  content_type : String := "text/plain"
  length : Option Nat := none
  src : Option Link := none
deriving DecidableEq

/-- Modelled from the spec: the Entry record of the unified model. -/
structure Entry where
  id : String
  title : Option Text := none
  updated : Option DateTime := none
  authors : List Person := []
  content : Option Content := none
  links : List Link := []
  summary : Option Text := none
  categories : List Category := []
  published : Option DateTime := none
  rights : Option Text := none
deriving DecidableEq

/-- Modelled from the spec: the Feed record of the unified model
(src/model.rs is not among the provided sources). -/
structure Feed where
  id : String
  title : Option Text := none
  updated : Option DateTime := none
  authors : List Person := []
  description : Option Text := none
  links : List Link := []
  categories : List Category := []
  contributors : List Person := []
  generator : Option Generator := none
  icon : Option Image := none
  logo : Option Image := none
  rights : Option Text := none
  language : Option String := none
  entries : List Entry := []
deriving DecidableEq

/-- Modelled from the spec: attr_value from src/util (not among the
provided sources) — lookup of an attribute value by local name in the
ordered attribute mapping. -/
def attr_value (attributes : List (String × String)) (name : String) : Option String :=
  (attributes.find? fun a => a.1 = name).map fun a => a.2

/-- The four dialect mappers, each a function from the opened root element
view to a parse result, exactly as the dispatcher consumes them.  Their
sources (src/parser/{atom,rss0,rss1,rss2}.rs) are not provided, so the
dispatcher is verified for every choice of mappers. -/
structure Mappers where
  atom : Node → ParseFeedResult Feed
  rss2 : Node → ParseFeedResult Feed
  rss0 : Node → ParseFeedResult Feed
  rss1 : Node → ParseFeedResult Feed

/-- Splits a character list on a separator character (helper for the
date parser; every occurrence separates, separators are dropped). -/
def splitOnChar (sep : Char) (cs : List Char) : List (List Char) :=
  match cs with
  | [] => [[]]
  | c :: rest =>
      let parts := splitOnChar sep rest
      if c = sep then
        [] :: parts
      else
        match parts with
        | [] => [[c]]
        | p :: ps => (c :: p) :: ps

/-- Reads a non-empty all-digit character list as a natural number. -/
def digitsToNat : List Char → Option Nat
  | [] => none
  | cs =>
      cs.foldl
        (fun acc c =>
          acc.bind fun n => if c.isDigit then some (n * 10 + (c.toNat - 48)) else none)
        (some 0)

/-- Modelled from the spec: RFC 3339 / ISO-8601 instant parsing as used by
the Atom mapper for updated and published (the date-parsing helper is not
among the provided sources).  Covers the UTC form
YYYY-MM-DDTHH:MM:SSZ with basic range validation; anything else is
rejected by yielding none. -/
def parseRfc3339 (s : String) : Option DateTime :=
  match splitOnChar 'T' s.toList with
  | [d, t] =>
    (match splitOnChar '-' d, t.reverse with
     | [y, mo, da], 'Z' :: timeRev =>
       (match splitOnChar ':' timeRev.reverse with
        | [h, mi, se] =>
          (match digitsToNat y, digitsToNat mo, digitsToNat da,
                 digitsToNat h, digitsToNat mi, digitsToNat se with
           | some yv, some mov, some dav, some hv, some miv, some sev =>
             if 1 ≤ mov ∧ mov ≤ 12 ∧ 1 ≤ dav ∧ dav ≤ 31 ∧ hv ≤ 23 ∧ miv ≤ 59 ∧ sev ≤ 60 then
               some ⟨yv, mov, dav, hv, miv, sev⟩
             else none
           | _, _, _, _, _, _ => none)
        | _ => none)
     | _, _ => none)
  | _ => none

/-- Modelled from the spec: text-content classification for Atom — the
explicit type attribute (text / html / xhtml) is honored, with text as
the Atom default when the attribute is absent or unrecognized. -/
def atomTextType (attributes : List (String × String)) : TextContentType :=
  match attr_value attributes "type" with
  | some "html" => TextContentType.Html
  | some "xhtml" => TextContentType.Xhtml
  | _ => TextContentType.Text

/-- Accumulator for the Atom entry walk. -/
structure AtomEntryAcc where
  id : Option String := none
  title : Option Text := none
  updated : Option DateTime := none

/-- Modelled from the spec: the Atom mapper walk over an entry element's
children — one forward pass matching on local name; unknown children are
skipped; an id child whose own text node is absent fails with
MissingContent; an unparseable updated is omitted (non-fatal). -/
def atomEntryChildren : List Node → AtomEntryAcc → ParseFeedResult AtomEntryAcc
  | [], acc => Except.ok acc
  | c :: rest, acc =>
      match c with
      | Node.element "id" x y z =>
          (match (Node.element "id" x y z).textContent with
           | some s => atomEntryChildren rest { acc with id := some s }
           | none =>
               Except.error (ParseFeedError.ParseError (ParseErrorKind.MissingContent "id")))
      | Node.element "title" _ attrs kids =>
          atomEntryChildren rest
            { acc with
              title := some
                { content_type := atomTextType attrs
                  value := ((Node.element "title" none attrs kids).textContent).getD "" } }
      | Node.element "updated" x y z =>
          atomEntryChildren rest
            { acc with updated := ((Node.element "updated" x y z).textContent).bind parseRfc3339 }
      | _ => atomEntryChildren rest acc

/-- Accumulator for the Atom feed walk. -/
structure AtomFeedAcc where
  id : Option String := none
  title : Option Text := none
  updated : Option DateTime := none
  entries : List Entry := []

/-- Modelled from the spec: an Atom entry element mapped to the unified
Entry; Atom entries carry an explicit id, so an entry without one fails
with MissingContent. -/
def atomEntry (e : Node) : ParseFeedResult Entry :=
  match atomEntryChildren e.children {} with
  | Except.error err => Except.error err
  | Except.ok acc =>
      match acc.id with
      | some i => Except.ok { id := i, title := acc.title, updated := acc.updated }
      | none => Except.error (ParseFeedError.ParseError (ParseErrorKind.MissingContent "id"))

/-- Modelled from the spec: the Atom mapper walk over the feed element's
children — entries are appended in document order, unknown children are
skipped, and the first error aborts the walk. -/
def atomFeedChildren : List Node → AtomFeedAcc → ParseFeedResult AtomFeedAcc
  | [], acc => Except.ok acc
  | c :: rest, acc =>
      match c with
      | Node.element "id" x y z =>
          (match (Node.element "id" x y z).textContent with
           | some s => atomFeedChildren rest { acc with id := some s }
           | none =>
               Except.error (ParseFeedError.ParseError (ParseErrorKind.MissingContent "id")))
      | Node.element "title" _ attrs kids =>
          atomFeedChildren rest
            { acc with
              title := some
                { content_type := atomTextType attrs
                  value := ((Node.element "title" none attrs kids).textContent).getD "" } }
      | Node.element "updated" x y z =>
          atomFeedChildren rest
            { acc with updated := ((Node.element "updated" x y z).textContent).bind parseRfc3339 }
      | Node.element "entry" x y z =>
          (match atomEntry (Node.element "entry" x y z) with
           | Except.ok entry => atomFeedChildren rest { acc with entries := acc.entries ++ [entry] }
           | Except.error err => Except.error err)
      | _ => atomFeedChildren rest acc

/-- Modelled from the spec: the Atom dialect mapper
(src/parser/atom.rs is not among the provided sources) — one depth-first
walk of the already-opened feed root populating the unified model; the
feed id is explicit in Atom and required non-empty in the model, so its
absence fails with MissingContent. -/
def atom.parse (root : Node) : ParseFeedResult Feed :=
  match atomFeedChildren root.children {} with
  | Except.error err => Except.error err
  | Except.ok acc =>
      match acc.id with
      | some i =>
          Except.ok
            { id := i, title := acc.title, updated := acc.updated, entries := acc.entries }
      | none => Except.error (ParseFeedError.ParseError (ParseErrorKind.MissingContent "id"))

/-- Stand-in for the three RSS mappers, whose sources are not provided
and whose behaviour no claim evaluates concretely (the dispatch theorems
quantify over all mappers); it is never selected in any concrete
theorem below. -/
def unmodelledMapper : Node → ParseFeedResult Feed :=
  fun _ => Except.error (ParseFeedError.ParseError (ParseErrorKind.MissingContent "unmodelled"))

/-- The concrete mapper table used by the closed (witness and
counterexample) theorems: the Atom mapper as modelled from the spec, the
RSS slots unexercised. -/
def specMappers : Mappers :=
  { atom := atom.parse
    rss2 := unmodelledMapper
    rss0 := unmodelledMapper
    rss1 := unmodelledMapper }

/-- Parse the XML input (Atom or a flavour of RSS) into the model:
src/parser/mod.rs, fn parse.  The Element Source bound to the input is
represented by the outcome of its root() call (Ok(Some(root)),
Ok(None), or Err(e)); the body mirrors the source exactly: the
if-let matches only Ok(Some(root)), every other outcome falls through to
the final NoFeedRoot, and the match dispatches on
(root.name.local_name, attr_value(attributes, "version")). -/
def parse (m : Mappers) (rootResult : Except XmlError (Option Node)) :
    ParseFeedResult Feed :=
  match rootResult with
  | Except.ok (some root) =>
    match root.local_name, attr_value root.attributes "version" with
    | "feed", _ => m.atom root
    | "rss", some "2.0" => m.rss2 root
    | "rss", some "0.91" => m.rss0 root
    | "rss", some "0.92" => m.rss0 root
    | "RDF", _ => m.rss1 root
    | _, _ => Except.error (ParseFeedError.ParseError ParseErrorKind.NoFeedRoot)
  | _ => Except.error (ParseFeedError.ParseError ParseErrorKind.NoFeedRoot)

/-- True exactly when a parse result is an XmlReader error (used to state
that a given result is not one). -/
def resultIsXmlReader : ParseFeedResult Feed → Bool
  | Except.error (ParseFeedError.XmlReader _) => true
  | _ => false

/-- The element tree the Element Source yields for the documentation
example input of src/parser/mod.rs (whitespace-only text nodes are
skipped transparently by the Element Source). -/
def sampleAtomDoc : Node :=
  Node.element "feed" none []
    [ Node.element "title" none [("type", "text")] [Node.text "sample feed"]
    , Node.element "updated" none [] [Node.text "2005-07-31T12:29:29Z"]
    , Node.element "id" none [] [Node.text "feed1"]
    , Node.element "entry" none []
        [ Node.element "title" none [] [Node.text "sample entry"]
        , Node.element "id" none [] [Node.text "entry1"] ] ]

/-- The element tree for the spec input of the missing-root property:
a document whose root is notafeed with no attributes and no children. -/
def notafeedDoc : Node :=
  Node.element "notafeed" none [] []

/-- Helper: any root whose local name is none of feed, rss, RDF falls
through the dispatch match to the final NoFeedRoot error. -/
theorem parse_no_match (m : Mappers) (name : String) (ns : Option String)
    (attrs : List (String × String)) (kids : List Node)
    (h1 : name ≠ "feed") (h2 : name ≠ "rss") (h3 : name ≠ "RDF") :
    parse m (Except.ok (some (Node.element name ns attrs kids))) =
      Except.error (ParseFeedError.ParseError ParseErrorKind.NoFeedRoot) := by
  simp only [parse, Node.local_name, Node.attributes]
  split <;> simp_all

/-- Helper: an rss root whose version attribute is absent or is none of
2.0, 0.91, 0.92 falls through the dispatch match to NoFeedRoot. -/
theorem parse_rss_unrecognized (m : Mappers) (ns : Option String)
    (attrs : List (String × String)) (kids : List Node)
    (h : attr_value attrs "version" ∉
        ([some "2.0", some "0.91", some "0.92"] : List (Option String))) :
    parse m (Except.ok (some (Node.element "rss" ns attrs kids))) =
      Except.error (ParseFeedError.ParseError ParseErrorKind.NoFeedRoot) := by
  simp only [parse, Node.local_name, Node.attributes]
  split <;> simp_all

/-- C1: dispatch correctness — a feed root goes to the Atom mapper, an
rss root with version 2.0 to the RSS 2.0 mapper, an rss root with
version 0.91 or 0.92 to the RSS 0.9x mapper, an RDF root to the RSS 1.0
mapper, and every other (local name, version) combination yields
ParseError(NoFeedRoot). -/
theorem dispatch_correct (m : Mappers) (name : String) (ns : Option String)
    (attrs : List (String × String)) (kids : List Node) :
    (name = "feed" →
      parse m (Except.ok (some (Node.element name ns attrs kids))) =
        m.atom (Node.element name ns attrs kids)) ∧
    (name = "rss" → attr_value attrs "version" = some "2.0" →
      parse m (Except.ok (some (Node.element name ns attrs kids))) =
        m.rss2 (Node.element name ns attrs kids)) ∧
    (name = "rss" →
      (attr_value attrs "version" = some "0.91" ∨ attr_value attrs "version" = some "0.92") →
      parse m (Except.ok (some (Node.element name ns attrs kids))) =
        m.rss0 (Node.element name ns attrs kids)) ∧
    (name = "RDF" →
      parse m (Except.ok (some (Node.element name ns attrs kids))) =
        m.rss1 (Node.element name ns attrs kids)) ∧
    (name ≠ "feed" → name ≠ "RDF" →
      (name = "rss" →
        attr_value attrs "version" ∉
          ([some "2.0", some "0.91", some "0.92"] : List (Option String))) →
      parse m (Except.ok (some (Node.element name ns attrs kids))) =
        Except.error (ParseFeedError.ParseError ParseErrorKind.NoFeedRoot)) := by
  refine ⟨?_, ?_, ?_, ?_, ?_⟩
  · intro h; subst h; rfl
  · intro h hv; subst h
    simp only [parse, Node.local_name, Node.attributes, hv]
  · intro h hv; subst h
    rcases hv with hv | hv <;> simp only [parse, Node.local_name, Node.attributes, hv]
  · intro h; subst h; rfl
  · intro h1 h3 h2
    by_cases hr : name = "rss"
    · subst hr; exact parse_rss_unrecognized m ns attrs kids (h2 rfl)
    · exact parse_no_match m name ns attrs kids h1 hr h3

/-- Witness for C1: concrete applications of the dispatch theorem — an
rss root with version 2.0 goes to the RSS 2.0 mapper, and an rss root
with version 1.0 yields NoFeedRoot. -/
theorem dispatch_correct_witness :
    parse specMappers
        (Except.ok (some (Node.element "rss" none [("version", "2.0")] []))) =
      specMappers.rss2 (Node.element "rss" none [("version", "2.0")] []) ∧
    parse specMappers
        (Except.ok (some (Node.element "rss" none [("version", "1.0")] []))) =
      Except.error (ParseFeedError.ParseError ParseErrorKind.NoFeedRoot) :=
  ⟨(dispatch_correct specMappers "rss" none [("version", "2.0")] []).2.1 rfl (by decide),
   (dispatch_correct specMappers "rss" none [("version", "1.0")] []).2.2.2.2
     (by decide) (by decide) (fun _ => by decide)⟩

/-- C2: fail-closed version tie-break — an rss root whose version
attribute is absent or unrecognized yields ParseError(NoFeedRoot) rather
than defaulting to any dialect, while for feed and RDF roots the version
attribute (part of the arbitrary attribute list) never influences
dispatch. -/
theorem version_fail_closed (m : Mappers) (ns : Option String)
    (attrs : List (String × String)) (kids : List Node)
    (h : attr_value attrs "version" ∉
        ([some "2.0", some "0.91", some "0.92"] : List (Option String))) :
    parse m (Except.ok (some (Node.element "rss" ns attrs kids))) =
      Except.error (ParseFeedError.ParseError ParseErrorKind.NoFeedRoot) ∧
    parse m (Except.ok (some (Node.element "feed" ns attrs kids))) =
      m.atom (Node.element "feed" ns attrs kids) ∧
    parse m (Except.ok (some (Node.element "RDF" ns attrs kids))) =
      m.rss1 (Node.element "RDF" ns attrs kids) := by
  exact ⟨parse_rss_unrecognized m ns attrs kids h, rfl, rfl⟩

/-- Witness for C2: an rss root with version 1.0 (and, via the same
instantiation, one with no version attribute) fails with NoFeedRoot. -/
theorem version_fail_closed_witness :
    parse specMappers
        (Except.ok (some (Node.element "rss" none [("version", "1.0")] []))) =
      Except.error (ParseFeedError.ParseError ParseErrorKind.NoFeedRoot) ∧
    parse specMappers (Except.ok (some (Node.element "rss" none [] []))) =
      Except.error (ParseFeedError.ParseError ParseErrorKind.NoFeedRoot) :=
  ⟨(version_fail_closed specMappers none [("version", "1.0")] [] (by decide)).1,
   (version_fail_closed specMappers none [] [] (by decide)).1⟩

/-- Counterexample to C3 as stated: when the Element Source fails with an
XmlError while fetching the root, parse returns ParseError(NoFeedRoot),
not an XmlReader error — the if-let in the source matches only
Ok(Some(root)), so the Err outcome falls through to the final
NoFeedRoot. -/
theorem xml_error_swallowed_cex :
    parse specMappers (Except.error ⟨"unexpected end of stream"⟩) =
      Except.error (ParseFeedError.ParseError ParseErrorKind.NoFeedRoot) ∧
    resultIsXmlReader (parse specMappers (Except.error ⟨"unexpected end of stream"⟩)) = false :=
  ⟨rfl, rfl⟩

/-- C3 amended: for every input on which the Element Source fails with an
XmlError while fetching the root element, parse swallows the XML error
and returns ParseError(NoFeedRoot); XmlReader propagation is confined to
errors arising after dispatch, inside a mapper. -/
theorem xml_error_root_swallowed (m : Mappers) (e : XmlError) :
    parse m (Except.error e) =
      Except.error (ParseFeedError.ParseError ParseErrorKind.NoFeedRoot) := rfl

/-- C4: missing-root failure — when the Element Source finds no top-level
element (root() yields None), and when the root's local name is none of
feed, rss, RDF, parse returns ParseError(NoFeedRoot). -/
theorem missing_root_fails (m : Mappers) (name : String) (ns : Option String)
    (attrs : List (String × String)) (kids : List Node)
    (h1 : name ≠ "feed") (h2 : name ≠ "rss") (h3 : name ≠ "RDF") :
    parse m (Except.ok none) =
      Except.error (ParseFeedError.ParseError ParseErrorKind.NoFeedRoot) ∧
    parse m (Except.ok (some (Node.element name ns attrs kids))) =
      Except.error (ParseFeedError.ParseError ParseErrorKind.NoFeedRoot) :=
  ⟨rfl, parse_no_match m name ns attrs kids h1 h2 h3⟩

/-- Witness for C4: the input notafeed with empty body yields
NoFeedRoot, as does the absent root. -/
theorem missing_root_fails_witness :
    parse specMappers (Except.ok none) =
      Except.error (ParseFeedError.ParseError ParseErrorKind.NoFeedRoot) ∧
    parse specMappers (Except.ok (some notafeedDoc)) =
      Except.error (ParseFeedError.ParseError ParseErrorKind.NoFeedRoot) :=
  ⟨(missing_root_fails specMappers "notafeed" none [] []
      (by decide) (by decide) (by decide)).1,
   (missing_root_fails specMappers "notafeed" none [] []
      (by decide) (by decide) (by decide)).2⟩

/-- C5: error taxonomy shape — ParseFeedError has exactly the two
variants ParseError and XmlReader (exhaustive and distinct),
ParseErrorKind has exactly the four variants NoFeedRoot, UnknownMimeType,
MissingContent, InvalidDateTime, and every error parse returns is one of
the two ParseFeedError forms. -/
theorem error_taxonomy_shape :
    (∀ e : ParseFeedError,
      (∃ k, e = ParseFeedError.ParseError k) ∨ (∃ x, e = ParseFeedError.XmlReader x)) ∧
    (∀ k x, ParseFeedError.ParseError k ≠ ParseFeedError.XmlReader x) ∧
    (∀ k : ParseErrorKind,
      k = ParseErrorKind.NoFeedRoot ∨
      (∃ s, k = ParseErrorKind.UnknownMimeType s) ∨
      (∃ f, k = ParseErrorKind.MissingContent f) ∨
      (∃ c, k = ParseErrorKind.InvalidDateTime c)) ∧
    (∀ (m : Mappers) (r : Except XmlError (Option Node)) (e : ParseFeedError),
      parse m r = Except.error e →
      (∃ k, e = ParseFeedError.ParseError k) ∨ (∃ x, e = ParseFeedError.XmlReader x)) := by
  refine ⟨?_, ?_, ?_, ?_⟩
  · intro e; cases e with
    | ParseError k => exact Or.inl ⟨k, rfl⟩
    | XmlReader x => exact Or.inr ⟨x, rfl⟩
  · intro k x h; cases h
  · intro k; cases k with
    | NoFeedRoot => exact Or.inl rfl
    | UnknownMimeType s => exact Or.inr (Or.inl ⟨s, rfl⟩)
    | MissingContent f => exact Or.inr (Or.inr (Or.inl ⟨f, rfl⟩))
    | InvalidDateTime c => exact Or.inr (Or.inr (Or.inr ⟨c, rfl⟩))
  · intro m r e _
    cases e with
    | ParseError k => exact Or.inl ⟨k, rfl⟩
    | XmlReader x => exact Or.inr ⟨x, rfl⟩

/-- C6: all-or-nothing — parse returns either a Feed or exactly one
error, never both: the result is an Ok feed or an Err error, and the two
outcomes are mutually exclusive. -/
theorem parse_all_or_nothing (m : Mappers) (r : Except XmlError (Option Node)) :
    ((∃ feed, parse m r = Except.ok feed) ∨ (∃ err, parse m r = Except.error err)) ∧
    (∀ feed err, parse m r = Except.ok feed → parse m r ≠ Except.error err) := by
  constructor
  · cases h : parse m r with
    | ok feed => exact Or.inl ⟨feed, rfl⟩
    | error err => exact Or.inr ⟨err, rfl⟩
  · intro feed err hok herr
    rw [hok] at herr
    cases herr

/-- C7: determinism — two invocations of parse on the same input (the
same Element Source root outcome, hence the same byte sequence) yield
structurally equal results. -/
theorem parse_deterministic (m : Mappers) (r1 r2 : Except XmlError (Option Node))
    (h : r1 = r2) : parse m r1 = parse m r2 := by
  rw [h]

/-- Witness for C7: two parses of the sample Atom document agree. -/
theorem parse_deterministic_witness :
    parse specMappers (Except.ok (some sampleAtomDoc)) =
      parse specMappers (Except.ok (some sampleAtomDoc)) :=
  parse_deterministic specMappers (Except.ok (some sampleAtomDoc))
    (Except.ok (some sampleAtomDoc)) rfl

/-- C8: minimal Atom round-trip — parsing the documentation example
document succeeds with id feed1, plain-text title sample feed, updated
2005-07-31T12:29:29Z, and exactly one entry with id entry1 and title
sample entry. -/
theorem minimal_atom_roundtrip :
    parse specMappers (Except.ok (some sampleAtomDoc)) =
      Except.ok
        { id := "feed1"
          title := some { content_type := TextContentType.Text, value := "sample feed" }
          updated := some ⟨2005, 7, 31, 12, 29, 29⟩
          entries := [ { id := "entry1"
                         title := some { content_type := TextContentType.Text
                                         value := "sample entry" } } ] } := by
  decide

/-- C9: case-sensitive, namespace-blind root matching — roots named Feed,
RSS, or rdf (case variants, any attributes) yield NoFeedRoot, while a
root named feed dispatches to the Atom mapper whatever namespace it is
bound to. -/
theorem root_match_case_sensitive (m : Mappers) (ns : Option String)
    (attrs : List (String × String)) (kids : List Node) :
    parse m (Except.ok (some (Node.element "Feed" ns attrs kids))) =
      Except.error (ParseFeedError.ParseError ParseErrorKind.NoFeedRoot) ∧
    parse m (Except.ok (some (Node.element "RSS" ns attrs kids))) =
      Except.error (ParseFeedError.ParseError ParseErrorKind.NoFeedRoot) ∧
    parse m (Except.ok (some (Node.element "rdf" ns attrs kids))) =
      Except.error (ParseFeedError.ParseError ParseErrorKind.NoFeedRoot) ∧
    parse m (Except.ok (some (Node.element "feed" ns attrs kids))) =
      m.atom (Node.element "feed" ns attrs kids) := by
  refine ⟨?_, ?_, ?_, rfl⟩
  · exact parse_no_match m "Feed" ns attrs kids (by decide) (by decide) (by decide)
  · exact parse_no_match m "RSS" ns attrs kids (by decide) (by decide) (by decide)
  · exact parse_no_match m "rdf" ns attrs kids (by decide) (by decide) (by decide)

/-- C10: dispatcher transparency — whenever the root matches an arm,
parse returns exactly the selected mapper's result unchanged, and the
result depends only on the selected mapper (replacing every other mapper
leaves it unchanged, so no other mapper is invoked). -/
theorem dispatcher_transparent (m m2 : Mappers) (ns : Option String)
    (attrs : List (String × String)) (kids : List Node) :
    (parse m (Except.ok (some (Node.element "feed" ns attrs kids))) =
      m.atom (Node.element "feed" ns attrs kids)) ∧
    (parse m (Except.ok (some (Node.element "RDF" ns attrs kids))) =
      m.rss1 (Node.element "RDF" ns attrs kids)) ∧
    (m.atom = m2.atom →
      parse m (Except.ok (some (Node.element "feed" ns attrs kids))) =
        parse m2 (Except.ok (some (Node.element "feed" ns attrs kids)))) ∧
    (m.rss1 = m2.rss1 →
      parse m (Except.ok (some (Node.element "RDF" ns attrs kids))) =
        parse m2 (Except.ok (some (Node.element "RDF" ns attrs kids)))) ∧
    (attr_value attrs "version" = some "2.0" →
      parse m (Except.ok (some (Node.element "rss" ns attrs kids))) =
        m.rss2 (Node.element "rss" ns attrs kids) ∧
      (m.rss2 = m2.rss2 →
        parse m (Except.ok (some (Node.element "rss" ns attrs kids))) =
          parse m2 (Except.ok (some (Node.element "rss" ns attrs kids))))) ∧
    ((attr_value attrs "version" = some "0.91" ∨ attr_value attrs "version" = some "0.92") →
      parse m (Except.ok (some (Node.element "rss" ns attrs kids))) =
        m.rss0 (Node.element "rss" ns attrs kids) ∧
      (m.rss0 = m2.rss0 →
        parse m (Except.ok (some (Node.element "rss" ns attrs kids))) =
          parse m2 (Except.ok (some (Node.element "rss" ns attrs kids))))) := by
  refine ⟨rfl, rfl, ?_, ?_, ?_, ?_⟩
  · intro h
    show m.atom (Node.element "feed" ns attrs kids) =
      m2.atom (Node.element "feed" ns attrs kids)
    rw [h]
  · intro h
    show m.rss1 (Node.element "RDF" ns attrs kids) =
      m2.rss1 (Node.element "RDF" ns attrs kids)
    rw [h]
  · intro hv
    constructor
    · simp only [parse, Node.local_name, Node.attributes, hv]
    · intro h
      simp only [parse, Node.local_name, Node.attributes, hv]
      rw [h]
  · intro hv
    constructor
    · rcases hv with hv | hv <;> simp only [parse, Node.local_name, Node.attributes, hv]
    · intro h
      rcases hv with hv | hv <;> simp only [parse, Node.local_name, Node.attributes, hv] <;> rw [h]

/-- Witness for C10: at the concrete mapper table, a feed root's result
is exactly the Atom mapper's result, and an rss 0.91 root's result is
exactly the RSS 0.9x mapper's result. -/
theorem dispatcher_transparent_witness :
    parse specMappers (Except.ok (some (Node.element "feed" none [] []))) =
      specMappers.atom (Node.element "feed" none [] []) ∧
    parse specMappers
        (Except.ok (some (Node.element "rss" none [("version", "0.91")] []))) =
      specMappers.rss0 (Node.element "rss" none [("version", "0.91")] []) :=
  ⟨(dispatcher_transparent specMappers specMappers none [] []).1,
   ((dispatcher_transparent specMappers specMappers none [("version", "0.91")] []).2.2.2.2.2
      (Or.inl (by decide))).1⟩

end FeedRs
